import Mathlib

/-!
Verification of the playback-session controller in
plex_mpv_shim/player.py (class PlayerManager), via a shallow embedding.

The controller mediates between a playback engine (mpv, external) and a
current media session ("_video").  We embed each method of PlayerManager as
a pure function on an explicit controller state, with the external
collaborators (engine behaviour, sibling resolution) passed in as an
environment record, and effects (engine commands, set_played calls, play
invocations) recorded in an output trace.

Collaborator classes not present in this repository's sources (the Video /
Media objects from the Plex API layer and the Timer from utils) are
modelled from the spec's collaborator contract and marked so in their
doc comments.
-/

set_option maxHeartbeats 1000000

/-- Commands issued to the playback engine (the mpv handle).
Each constructor corresponds to one attribute write or command call
on self. _player in player.py. -/
inductive EngineCmd where
  | playUrl (url : String)        -- self. _player.play(url)
  | waitDuration                  -- self. _player.wait_for_property("duration")
  | setFs                         -- self. _player.fs = True
  | setPlaybackTime (t : Nat)     -- self. _player.playback_time = offset
  | setAudio (i : Nat)            -- self. _player.audio = i
  | setSub (i : Nat)              -- self. _player.sub = i
  | setSubNo                      -- self. _player.sub = "no"
  | setPauseFalse                 -- self. _player.pause = False
  | stopCmd                       -- self. _player.command("stop")
  deriving DecidableEq, Repr

/-- Observable effects of a controller method: engine commands plus the
calls made on the media objects (set_played, update_position) and the
entry of play() itself (video id and offset argument). -/
inductive Ev where
  | engine (c : EngineCmd)
  | setPlayed (vid : Nat) (value : Bool)   -- video.set_played(value)
  | updatePosition (vid : Nat) (pos : Nat) -- video.update_position(pos)
  | playCalled (vid : Nat) (offset : Nat)  -- entry of self.play(video, offset)
  deriving DecidableEq, Repr

/-- Modelled from the spec: the Video/session collaborator object (from the
Plex API layer, not under this repository's sources).  Per the spec's
collaborator contract it can: resolve a playback URL (nullable), get
duration, get preferred audio/subtitle index (optional), expose
audio/subtitle id-to-engine-index maps, report multi-part status, select a
given part (success iff the part exists: parts counts the parts), and
report whether its parent container has a next/previous sibling. -/
structure Video where
  id : Nat
  url : Option String              -- get_playback_url()
  audioIdx : Option Nat            -- get_audio_idx()
  subIdx : Option Nat              -- get_subtitle_idx()
  multipart : Bool                 -- is_multipart()
  parts : Nat                      -- select_part(k) succeeds iff k ≤ parts
  played : Bool
  duration : Nat                   -- get_duration()
  hasNext : Bool                   -- parent.has_next
  hasPrev : Bool                   -- parent.has_prev
  audio_seq : List (String × Nat)    -- audio_seq dict (external id → engine index)
  subtitle_seq : List (String × Nat) -- subtitle_seq dict
  deriving DecidableEq, Repr

/-- External environment of a controller call: the engine's abort flag,
whether the engine ever publishes a "duration" property (governing the
blocking wait in play), and the parent container's sibling resolution
(get_next().get_video(0), get_prev().get_video(0), get_from_key(key)
composed with get_video(0)). -/
structure Env where
  abort : Bool                     -- self. _player.playback_abort
  pub : Bool                       -- engine eventually publishes duration
  nextFirst : Video                -- parent.get_next().get_video(0)
  prevFirst : Video                -- parent.get_prev().get_video(0)
  byKey : List (String × Video)    -- parent.get_from_key(key), then get_video(0)

/-- Controller state: the fields of PlayerManager that the specified
operations read or write.  part is the name-mangled self.__part. -/
structure PM where
  url : Option String              -- self.url (cached playback URL)
  video : Option Video             -- self. _video (the Session; None = no session)
  part : Nat                       -- self.__part, initialised to 1
  autoPlay : Bool                  -- self.auto_play
  deriving DecidableEq, Repr

/-- Python truthiness of the cached URL: None and the empty string are
falsy (the source guards with: if not self.url). -/
def urlFalsy : Option String → Bool
  | none => true
  | some u => u == ""

/-- Outcome of a controller method call: normal return, an uncaught Python
exception, or a call that never returns (the blocking
wait_for_property("duration") is issued with no timeout, so it blocks
forever when the engine never publishes a duration). -/
inductive Outcome (α : Type) where
  | ok (a : α)
  | exn          -- AttributeError from dereferencing a None session
  | blocked      -- the call blocks indefinitely
  deriving Repr, DecidableEq

/-- PlayerManager.play(video, offset=0), player.py lines 98-125.
Assigns self.url from the video (before the truthiness check), returns
early when the URL is falsy, otherwise issues the load command, blocks on
wait_for_property("duration") (forever if the engine never publishes),
sets fullscreen, seeks iff offset > 0, applies the video's declared
audio/subtitle indices (subtitles off when none declared), unpauses, and
installs the video as the new session.  self.__part is not touched. -/
def play (env : Env) (s : PM) (video : Video) (offset : Nat) : Outcome (PM × List Ev) :=
  let s1 : PM := { s with url := video.url }
  if urlFalsy video.url then
    .ok (s1, [.playCalled video.id offset])
  else if env.pub = false then
    .blocked
  else
    match video.url with
    | none => .ok (s1, [.playCalled video.id offset])  -- unreachable: urlFalsy none = true
    | some u =>
      let evs : List Ev :=
        [.playCalled video.id offset, .engine (.playUrl u), .engine .waitDuration,
         .engine .setFs]
        ++ (if offset > 0 then [.engine (.setPlaybackTime offset)] else [])
        ++ (match video.audioIdx with
            | some i => [.engine (.setAudio i)]
            | none => [])
        ++ (match video.subIdx with
            | some i => [.engine (.setSub i)]
            | none => [.engine .setSubNo])
        ++ [.engine .setPauseFalse]
      .ok ({ s1 with video := some video }, evs)

/-- PlayerManager.stop(), player.py lines 127-136.  No-op when there is no
session or the engine is aborted; otherwise clears the session, issues the
engine stop command and resets the pause flag. -/
def stop (env : Env) (s : PM) : PM × List Ev :=
  if s.video = none ∨ env.abort then
    (s, [])
  else
    ({ s with video := none }, [.engine .stopCmd, .engine .setPauseFalse])

/-- State component of an outcome, with a default for the abnormal cases. -/
def Outcome.stOr (r : Outcome (PM × List Ev)) (s : PM) : PM :=
  match r with
  | .ok (s1, _) => s1
  | _ => s

/-- Event-trace component of an outcome (empty in the abnormal cases). -/
def Outcome.evsOr (r : Outcome (PM × List Ev)) : List Ev :=
  match r with
  | .ok (_, evs) => evs
  | _ => []

/-- PlayerManager.finished_callback(), player.py lines 179-199.  No-op
without a session.  Marks the finished video played (mutating the video
object held as the session).  When the video is multi-part: tries
select_part(self.__part + 1); on success advances self.__part and replays
the same video object (offset omitted, i.e. 0); on failure (final part)
nothing further happens.  Only when the video is NOT multi-part does the
elif run: when the parent has a next sibling and auto_play is set, plays
that sibling's first sub-video. -/
def finished_callback (env : Env) (s : PM) : Outcome (PM × List Ev) :=
  match s.video with
  | none => .ok (s, [])
  | some v =>
    let v' : Video := { v with played := true }
    let s1 : PM := { s with video := some v' }
    if v'.multipart then
      let next_part := s.part + 1
      if next_part ≤ v'.parts then
        let s2 : PM := { s1 with part := next_part }
        match play env s2 v' 0 with
        | .ok (s3, evs) => .ok (s3, .setPlayed v.id true :: evs)
        | .exn => .exn
        | .blocked => .blocked
      else
        .ok (s1, [.setPlayed v.id true])
    else if v'.hasNext && s1.autoPlay then
      match play env s1 env.nextFirst 0 with
      | .ok (s3, evs) => .ok (s3, .setPlayed v.id true :: evs)
      | .exn => .exn
      | .blocked => .blocked
    else
      .ok (s1, [.setPlayed v.id true])

/-- PlayerManager.play_next(), player.py lines 217-222.  Reads
self. _video.parent.has_next without a None guard: with no session the
attribute access on None raises.  Otherwise plays the next sibling's first
sub-video and returns True, or returns False. -/
def play_next (env : Env) (s : PM) : Outcome (PM × List Ev × Bool) :=
  match s.video with
  | none => .exn
  | some v =>
    if v.hasNext then
      match play env s env.nextFirst 0 with
      | .ok (s1, evs) => .ok (s1, evs, true)
      | .exn => .exn
      | .blocked => .blocked
    else
      .ok (s, [], false)

/-- PlayerManager.play_prev(), player.py lines 232-237: mirror image of
play_next over parent.has_prev / get_prev, same missing None guard. -/
def play_prev (env : Env) (s : PM) : Outcome (PM × List Ev × Bool) :=
  match s.video with
  | none => .exn
  | some v =>
    if v.hasPrev then
      match play env s env.prevFirst 0 with
      | .ok (s1, evs) => .ok (s1, evs, true)
      | .exn => .exn
      | .blocked => .blocked
    else
      .ok (s, [], false)

/-- PlayerManager.skip_to(key), player.py lines 224-230.  Resolves
self. _video.parent.get_from_key(key) — again without a None-session
guard — and plays the resolved item's first sub-video when found.
Env.byKey holds the composition get_from_key then get_video(0). -/
def skip_to (env : Env) (s : PM) (key : String) : Outcome (PM × List Ev × Bool) :=
  match s.video with
  | none => .exn
  | some _ =>
    match env.byKey.lookup key with
    | some m =>
      match play env s m 0 with
      | .ok (s1, evs) => .ok (s1, evs, true)
      | .exn => .exn
      | .blocked => .blocked
    | none => .ok (s, [], false)

/-- PlayerManager.watched_skip(), player.py lines 201-207.  Guarded no-op
without a session; otherwise marks played and calls play_next(). -/
def watched_skip (env : Env) (s : PM) : Outcome (PM × List Ev) :=
  match s.video with
  | none => .ok (s, [])
  | some v =>
    let s1 : PM := { s with video := some { v with played := true } }
    match play_next env s1 with
    | .ok (s2, evs, _) => .ok (s2, .setPlayed v.id true :: evs)
    | .exn => .exn
    | .blocked => .blocked

/-- PlayerManager.unwatched_quit(), player.py lines 209-215.  Guarded no-op
without a session; otherwise marks unplayed and calls stop(). -/
def unwatched_quit (env : Env) (s : PM) : Outcome (PM × List Ev) :=
  match s.video with
  | none => .ok (s, [])
  | some v =>
    let s1 : PM := { s with video := some { v with played := false } }
    let r := stop env s1
    .ok (r.1, .setPlayed v.id false :: r.2)

/-- Python comparison x == "" applied to an optional string: for the value
None it is False (None == "" in Python), for a string it compares. -/
def pyEqEmptyStr : Option String → Bool
  | none => false
  | some u => u == ""

/-- PlayerManager.set_streams(audio_uid, sub_uid), player.py lines
245-256.  Source shape: if audio_uid is not None, apply the audio_seq
mapping; then if sub_uid is not None, apply the subtitle_seq mapping;
elif sub_uid == "" (an elif only reachable when sub_uid IS None, where the
comparison is False — hence dead), disable subtitles.  A dict subscript
with an absent key raises, as does the attribute access when no session
exists while a uid is given. -/
def set_streams (s : PM) (audio_uid sub_uid : Option String) : Outcome (List EngineCmd) :=
  let audioRes : Outcome (List EngineCmd) :=
    match audio_uid with
    | none => .ok []
    | some a =>
      match s.video with
      | none => .exn
      | some v =>
        match v.audio_seq.lookup a with
        | some idx => .ok [.setAudio idx]
        | none => .exn
  match audioRes with
  | .ok cmds1 =>
    match sub_uid with
    | some u =>
      match s.video with
      | none => .exn
      | some v =>
        match v.subtitle_seq.lookup u with
        | some idx => .ok (cmds1 ++ [.setSub idx])
        | none => .exn
    | none =>
      if pyEqEmptyStr none then .ok (cmds1 ++ [.setSubNo]) else .ok cmds1
  | .exn => .exn
  | .blocked => .blocked

/-- True when the outcome issued the subtitle-disable command. -/
def disablesSub (r : Outcome (List EngineCmd)) : Bool :=
  match r with
  | .ok cmds => cmds.contains EngineCmd.setSubNo
  | _ => false

/-! ### Engine callbacks (player.py lines 46-69)

The six handlers registered on the mpv instance in PlayerManager.__init__.
What matters for the locking discipline is only which path each handler
takes when the engine thread fires it: a direct method call (which takes
the controller lock and mutates state / commands the engine on the engine
thread) versus self.put_task(method) (which only enqueues onto evt_queue).
-/

/-- Controller methods reachable from an engine callback. -/
inductive CbMethod where
  | stopM
  | play_prevM
  | play_nextM
  | watched_skipM
  | unwatched_quitM
  | finishedM
  deriving DecidableEq, Repr

/-- Effect of one firing of a registered engine callback. -/
inductive CbEffect where
  | direct (m : CbMethod)    -- calls the controller method inline
  | enqueue (m : CbMethod)   -- self.put_task(method): only enqueues
  | noop
  deriving DecidableEq, Repr

/-- Key handler for q (lines 46-48): calls self.stop() directly. -/
def handle_stop : CbEffect := .direct .stopM

/-- Key handler for < (lines 50-52): self.put_task(self.play_prev). -/
def handle_prev : CbEffect := .enqueue .play_prevM

/-- Key handler for > (lines 54-56): self.put_task(self.play_next). -/
def handle_next : CbEffect := .enqueue .play_nextM

/-- Key handler for w (lines 58-60): self.put_task(self.watched_skip). -/
def handle_watched : CbEffect := .enqueue .watched_skipM

/-- Key handler for u (lines 62-64): self.put_task(self.unwatched_quit). -/
def handle_unwatched : CbEffect := .enqueue .unwatched_quitM

/-- Idle event handler (lines 66-69): enqueues finished_callback when a
session is active, else does nothing. -/
def handle_end (videoActive : Bool) : CbEffect :=
  if videoActive then .enqueue .finishedM else .noop

/-- True when the handler effect only enqueues (or does nothing). -/
def CbEffect.enqueueOnly : CbEffect → Bool
  | .direct _ => false
  | .enqueue _ => true
  | .noop => true

/-! ### The deferred task queue and update()'s drain loop
(player.py lines 77-84)

put_task appends a (function, args) pair to evt_queue; update() runs
while not self.evt_queue.empty(): func, args = self.evt_queue.get();
func(*args) — with no try/except around func(*args).  A task is an opaque
callable; the behaviours that matter for the drain are: it can itself call
put_task (the loop condition is re-tested, so such a task is picked up by
the SAME drain), and it can raise (aborting the loop, the exception
propagating out of update()).  We record the ids of the tasks whose
callable was invoked, the queue contents when the loop exits, and whether
an exception escaped. -/
inductive QTask where
  | basic (tid : Nat)            -- runs without touching the queue
  | enq (tid : Nat) (t : QTask)   -- when run, calls put_task(t)
  | raiseT (tid : Nat)           -- when run, raises
  deriving DecidableEq, Repr

/-- Identifier of a task. -/
def QTask.tid : QTask → Nat
  | .basic i => i
  | .enq i _ => i
  | .raiseT i => i

/-- Structural size of a task (counting nested enqueue payloads). -/
def QTask.size : QTask → Nat
  | .basic _ => 1
  | .enq _ t => 1 + t.size
  | .raiseT _ => 1

/-- Total size of a queue, the drain loop's termination measure. -/
def queueSize (q : List QTask) : Nat := (q.map QTask.size).sum

/-- True when the task never raises, not even from a nested payload. -/
def QTask.raiseFree : QTask → Bool
  | .basic _ => true
  | .enq _ t => t.raiseFree
  | .raiseT _ => false

/-- The drain loop of PlayerManager.update, player.py lines 82-84.
Returns (ids of tasks run, queue left when the loop exits, whether an
exception escaped update()). -/
def drain (q : List QTask) : List Nat × List QTask × Bool :=
  match q with
  | [] => ([], [], false)
  | .basic i :: rest =>
    let r := drain rest
    (i :: r.1, r.2.1, r.2.2)
  | .raiseT i :: rest => ([i], rest, true)
  | .enq i t :: rest =>
    let r := drain (rest ++ [t])
    (i :: r.1, r.2.1, r.2.2)
termination_by queueSize q
decreasing_by
  · simp [queueSize, QTask.size]
  · simp [queueSize, QTask.size, List.map_append, List.sum_append]
    omega

/-! ### The scrobble tail of update() (player.py lines 85-96)

After the drain, when a session is active and the engine is not aborted:
if the Timer's elapsed time exceeds SCROBBLE_INTERVAL and playback is not
paused, then — only when the video is not already marked played — the
ratio playback_time / duration is tested against COMPLETE_PERCENT (0.95):
at or above it the video is marked played, below it a position update is
pushed when playback_time exceeds FIVE_MINUTES seconds; in all these
branches the Timer restarts.  The Timer (from utils, not under this
repository's sources) is modelled from the spec: monotonic elapsed time
since the last restart.  The float ratio test is taken exactly over the
naturals: 20 * position ≥ 19 * duration. -/

/-- Constant from player.py line 16. -/
def SCROBBLE_INTERVAL : Nat := 5

/-- Constant from player.py line 21. -/
def FIVE_MINUTES : Nat := 300

/-- One observation made by update() after the drain: wall-clock time of
the call, the engine's playback_time, its pause flag and abort flag. -/
structure Obs where
  time : Nat
  position : Nat
  paused : Bool
  abort : Bool
  deriving DecidableEq, Repr

/-- Scrobble-relevant state: the session video's played flag and the
Timer's last restart instant. -/
structure Scrob where
  played : Bool
  lastRestart : Nat
  deriving DecidableEq, Repr

/-- Events the scrobble tail can fire on the media object. -/
inductive ScrobEv where
  | setPlayedEv
  | updatePositionEv (pos : Nat)
  deriving DecidableEq, Repr

/-- The scrobble tail of PlayerManager.update (lines 85-96) for an active
session with the given duration. -/
def update_scrobble (duration : Nat) (s : Scrob) (o : Obs) : Scrob × List ScrobEv :=
  if o.abort then (s, [])
  else if o.time - s.lastRestart > SCROBBLE_INTERVAL ∧ o.paused = false then
    if s.played = false then
      if 20 * o.position ≥ 19 * duration then
        ({ played := true, lastRestart := o.time }, [.setPlayedEv])
      else if o.position > FIVE_MINUTES then
        ({ s with lastRestart := o.time }, [.updatePositionEv o.position])
      else
        ({ s with lastRestart := o.time }, [])
    else
      ({ s with lastRestart := o.time }, [])
  else (s, [])

/-- A sequence of update() calls on one item: the scrobble tail applied to
successive observations, collecting the events fired at each call. -/
def update_scrobble_run (duration : Nat) (s : Scrob) (os : List Obs) :
    Scrob × List (List ScrobEv) :=
  match os with
  | [] => (s, [])
  | o :: rest =>
    let r1 := update_scrobble duration s o
    let r2 := update_scrobble_run duration r1.1 rest
    (r2.1, r1.2 :: r2.2)

/-- Number of set_played firings across a run's per-call event lists. -/
def firedCount (evss : List (List ScrobEv)) : Nat :=
  (evss.map (fun evs => evs.count ScrobEv.setPlayedEv)).sum

/-! ### Concrete fixtures used by counterexamples and witnesses -/

/-- A plain single-part video with a next sibling. -/
def vNext : Video :=
  { id := 2, url := some "u2", audioIdx := none, subIdx := none,
    multipart := false, parts := 1, played := false, duration := 100,
    hasNext := false, hasPrev := false, audio_seq := [], subtitle_seq := [] }

/-- A multi-part video currently on its final part (parts = 1), whose
parent has a next sibling. -/
def vMulti : Video :=
  { id := 1, url := some "u", audioIdx := none, subIdx := none,
    multipart := true, parts := 1, played := false, duration := 100,
    hasNext := true, hasPrev := false, audio_seq := [], subtitle_seq := [] }

/-- A two-part video currently on part 1, used to exercise the
part-advance branch. -/
def vTwoPart : Video :=
  { id := 7, url := some "u7", audioIdx := none, subIdx := none,
    multipart := true, parts := 2, played := false, duration := 100,
    hasNext := false, hasPrev := false, audio_seq := [], subtitle_seq := [] }

/-- A plain playable video. -/
def vPlain : Video :=
  { id := 3, url := some "u3", audioIdx := none, subIdx := none,
    multipart := false, parts := 1, played := false, duration := 100,
    hasNext := false, hasPrev := false, audio_seq := [], subtitle_seq := [] }

/-- A video for which no playback URL resolves. -/
def vNoUrl : Video :=
  { id := 4, url := none, audioIdx := none, subIdx := none,
    multipart := false, parts := 1, played := false, duration := 100,
    hasNext := false, hasPrev := false, audio_seq := [], subtitle_seq := [] }

/-- A video whose subtitle_seq dict has no entry for the empty id. -/
def vSubMap : Video :=
  { id := 5, url := some "u5", audioIdx := none, subIdx := none,
    multipart := false, parts := 1, played := false, duration := 100,
    hasNext := false, hasPrev := false, audio_seq := [],
    subtitle_seq := [("5", 2)] }

/-- A healthy environment: engine alive, duration published, next sibling
resolving to vNext. -/
def envStd : Env :=
  { abort := false, pub := true, nextFirst := vNext, prevFirst := vNext,
    byKey := [] }

/-- An environment whose engine never publishes a duration property. -/
def envNoPub : Env :=
  { abort := false, pub := false, nextFirst := vNext, prevFirst := vNext,
    byKey := [] }

/-- Controller state playing the final part of vMulti, auto-play on. -/
def sMulti : PM :=
  { url := some "u", video := some vMulti, part := 1, autoPlay := true }

/-- Controller state playing part 1 of the two-part vTwoPart. -/
def sTwoPart : PM :=
  { url := some "u7", video := some vTwoPart, part := 1, autoPlay := true }

/-- Controller state whose part index has advanced to 3. -/
def sPart3 : PM :=
  { url := some "u", video := none, part := 3, autoPlay := true }

/-- Controller state with a previously cached URL and no session. -/
def sOldUrl : PM :=
  { url := some "old", video := none, part := 1, autoPlay := true }

/-- Controller state with no session at all. -/
def sNone : PM :=
  { url := none, video := none, part := 1, autoPlay := true }

/-- Controller state whose session is vSubMap. -/
def sC9 : PM :=
  { url := some "u5", video := some vSubMap, part := 1, autoPlay := true }

/-! ## Theorems -/

/-- Helper: play never changes the part index, whatever the outcome. -/
theorem play_part_preserved (env : Env) (s : PM) (v : Video) (off : Nat) :
    ((play env s v off).stOr s).part = s.part := by
  unfold play Outcome.stOr
  rcases v.url with _ | u <;> split_ifs <;> rfl

/-- C3 counterexample: the claim says every call of play() terminates
within an enforced timeout.  With a resolvable URL and an engine that
never publishes a duration property, play() blocks forever inside
wait_for_property("duration") — there is no timeout argument at
player.py line 106. -/
theorem C3_cex_play_blocks_forever :
    play envNoPub sNone vPlain 0 = Outcome.blocked := by rfl

/-- C3 (corrected): play(video, offset) blocks indefinitely exactly when
the video's URL is truthy (so the early return is not taken) and the
engine never publishes the duration property; no timeout bounds the wait.
In every other case play() returns. -/
theorem C3_play_blocks_iff_no_duration (env : Env) (s : PM) (v : Video) (off : Nat) :
    play env s v off = Outcome.blocked ↔
      (urlFalsy v.url = false ∧ env.pub = false) := by
  unfold play
  rcases v.url with _ | u <;> split_ifs <;> simp_all [urlFalsy]

/-- C4 counterexample: the claim says every registered engine callback
only enqueues a task.  The q key handler (player.py lines 46-48) instead
calls self.stop() directly on the engine thread. -/
theorem C4_cex_handle_stop_is_direct :
    CbEffect.enqueueOnly handle_stop = false ∧
    handle_stop = CbEffect.direct CbMethod.stopM := by decide

/-- C4 (corrected): the key handlers for previous, next, watched and
unwatched, and the idle handler, only enqueue a (function, args) task (the
idle handler enqueues or does nothing); the stop key handler alone calls
stop() directly, mutating controller state and issuing an engine command
from the engine thread. -/
theorem C4_callbacks_enqueue_except_stop :
    CbEffect.enqueueOnly handle_prev = true ∧
    CbEffect.enqueueOnly handle_next = true ∧
    CbEffect.enqueueOnly handle_watched = true ∧
    CbEffect.enqueueOnly handle_unwatched = true ∧
    (∀ b : Bool, CbEffect.enqueueOnly (handle_end b) = true) ∧
    handle_stop = CbEffect.direct CbMethod.stopM := by decide

/-- C5 counterexample: the claim says a failed play() leaves every
controller field, including the cached URL, unchanged.  Calling play() on
a video with no resolvable URL from a state whose cached URL was set
overwrites self.url (assigned at player.py line 100, before the check at
line 101) with the unresolvable value. -/
theorem C5_cex_cached_url_clobbered :
    ((play envStd sOldUrl vNoUrl 0).stOr sOldUrl).url ≠ sOldUrl.url ∧
    play envStd sOldUrl vNoUrl 0 =
      Outcome.ok ({ sOldUrl with url := none }, [Ev.playCalled 4 0]) := by
  refine ⟨?_, rfl⟩
  intro h
  simp [play, Outcome.stOr, urlFalsy, vNoUrl, sOldUrl] at h

/-- C5 (corrected): when no playable URL resolves (Python-falsy:
None or empty), play() returns early having issued no engine command and
not replaced the session, with every controller field unchanged except
self.url, which has been overwritten with the failed lookup's value. -/
theorem C5_play_no_url_state (env : Env) (s : PM) (v : Video) (off : Nat)
    (h : urlFalsy v.url = true) :
    play env s v off = Outcome.ok ({ s with url := v.url }, [Ev.playCalled v.id off]) := by
  unfold play
  rw [h]
  simp

/-- C5 witness: the corrected statement at the concrete no-URL video. -/
theorem C5_wit : play envStd sNone vNoUrl 7 =
    Outcome.ok ({ sNone with url := vNoUrl.url }, [Ev.playCalled vNoUrl.id 7]) :=
  C5_play_no_url_state envStd sNone vNoUrl 7 rfl

/-- C2 counterexample: the claim says the part index is reset to 1 by any
play() of a new video.  From a state whose part index is 3, a successful
play() of a fresh single-part video leaves the part index at 3:
self.__part is assigned only in __init__ (line 75) and in
finished_callback (line 191), never in play(). -/
theorem C2_cex_part_not_reset_by_play :
    ((play envStd sPart3 vPlain 0).stOr sPart3).part = 3 ∧
    ((play envStd sPart3 vPlain 0).stOr sPart3).video = some vPlain ∧
    (3 : Nat) ≠ 1 := by decide

/-- C2 (corrected): within one multi-part item the part index advances by
exactly 1 per successful part transition, but it is never reset: play()
and stop() leave it unchanged in every case, and finished_callback()
either leaves it unchanged or increments it by exactly 1 — so a new
top-level session does NOT restore it to its initial value 1. -/
theorem C2_part_monotone_never_reset (env : Env) (s : PM) (v : Video) (off : Nat) :
    ((play env s v off).stOr s).part = s.part ∧
    (stop env s).1.part = s.part ∧
    (((finished_callback env s).stOr s).part = s.part ∨
     ((finished_callback env s).stOr s).part = s.part + 1) := by
  refine ⟨play_part_preserved env s v off, ?_, ?_⟩
  · unfold stop
    split_ifs <;> rfl
  · unfold finished_callback
    rcases s.video with _ | w
    · exact Or.inl rfl
    · simp only
      split_ifs with hmp hsel hnx
      · rcases hp : play env { s with video := some { w with played := true }, part := s.part + 1 }
          { w with played := true } 0 with ⟨s3, evs⟩ | _ | _
        · right
          have := play_part_preserved env
            { s with video := some { w with played := true }, part := s.part + 1 }
            { w with played := true } 0
          rw [hp] at this
          simpa [Outcome.stOr] using this
        · exact Or.inl rfl
        · exact Or.inl rfl
      · exact Or.inl rfl
      · rcases hp : play env { s with video := some { w with played := true } } env.nextFirst 0
          with ⟨s3, evs⟩ | _ | _
        · left
          have := play_part_preserved env
            { s with video := some { w with played := true } } env.nextFirst 0
          rw [hp] at this
          simpa [Outcome.stOr] using this
        · exact Or.inl rfl
        · exact Or.inl rfl
      · exact Or.inl rfl

/-- C10 (confirmed): with no active session, play_next(), play_prev() and
skip_to(key) dereference the parent attribute of the None session and
raise, while watched_skip(), unwatched_quit() and finished_callback()
guard on the session and return silently with nothing changed. -/
theorem C10_null_session_guards (env : Env) (s : PM) (key : String)
    (h : s.video = none) :
    play_next env s = Outcome.exn ∧
    play_prev env s = Outcome.exn ∧
    skip_to env s key = Outcome.exn ∧
    watched_skip env s = Outcome.ok (s, []) ∧
    unwatched_quit env s = Outcome.ok (s, []) ∧
    finished_callback env s = Outcome.ok (s, []) := by
  unfold play_next play_prev skip_to watched_skip unwatched_quit finished_callback
  rw [h]
  exact ⟨rfl, rfl, rfl, rfl, rfl, rfl⟩

/-- C10 witness: the guards at the concrete empty-session state. -/
theorem C10_wit : play_next envStd sNone = Outcome.exn :=
  (C10_null_session_guards envStd sNone "k" rfl).1

/-- C9 (code_bug): at player.py lines 251-256 the branch
elif sub_uid == "" (logging "selecting subtitle stream (none)") can never
run: an empty-string sub_uid satisfies "is not None" and is routed through
the subtitle_seq mapping (raising KeyError when the dict lacks the empty
key), and when sub_uid is None the elif comparison None == "" is False.
Hence set_streams never issues the subtitle-disable command, on any
input. -/
theorem C9_empty_sub_uid_never_disables :
    set_streams sC9 none (some "") = Outcome.exn ∧
    disablesSub (set_streams sC9 none (some "")) = false ∧
    (∀ (s : PM) (a su : Option String), disablesSub (set_streams s a su) = false) := by
  refine ⟨rfl, rfl, ?_⟩
  intro s a su
  unfold set_streams disablesSub pyEqEmptyStr
  rcases a with _ | a0
  · rcases su with _ | u0
    · simp
    · rcases hv : s.video with _ | v
      · simp
      · rcases h2 : v.subtitle_seq.lookup u0 with _ | j <;> simp [h2]
  · rcases hv : s.video with _ | v
    · simp
    · rcases h1 : v.audio_seq.lookup a0 with _ | i
      · simp [h1]
      · rcases su with _ | u0
        · simp [h1]
        · rcases h2 : v.subtitle_seq.lookup u0 with _ | j <;> simp [h1, h2]

/-- Helper: when the engine publishes a duration, play() always returns,
its trace begins with its own invocation record, and the part index of the
resulting state is the caller's. -/
theorem play_ok_of_pub (env : Env) (s : PM) (v : Video) (off : Nat)
    (hpub : env.pub = true) :
    ∃ s1 evs, play env s v off = .ok (s1, Ev.playCalled v.id off :: evs) ∧
      s1.part = s.part := by
  unfold play
  rcases hu : v.url with _ | u
  · exact ⟨_, _, rfl, rfl⟩
  · by_cases he : u = ""
    · subst he
      exact ⟨_, _, rfl, rfl⟩
    · have hf : urlFalsy (some u) = false := by simp [urlFalsy, he]
      rw [hf, hpub]
      simp only [Bool.false_eq_true, if_false, reduceIte]
      exact ⟨_, _, rfl, rfl⟩

/-- Helper: finished_callback on a multi-part video with a next part
advances the part index by exactly 1 and replays the same video reference
(same id, now marked played) from offset 0. -/
theorem fc_multipart_advance (env : Env) (s : PM) (v : Video)
    (hv : s.video = some v) (hm : v.multipart = true)
    (hle : s.part + 1 ≤ v.parts) (hpub : env.pub = true) :
    ∃ s3 evs, finished_callback env s =
        .ok (s3, Ev.setPlayed v.id true :: Ev.playCalled v.id 0 :: evs) ∧
      s3.part = s.part + 1 := by
  unfold finished_callback
  rw [hv]
  dsimp only
  obtain ⟨s1, evs, hp, hpart⟩ := play_ok_of_pub env
    { s with video := some { v with played := true }, part := s.part + 1 }
    { v with played := true } 0 hpub
  split_ifs
  rw [hp]
  exact ⟨s1, evs, rfl, hpart⟩

/-- Helper: finished_callback on the final part of a multi-part video does
nothing beyond marking it played — the auto-play elif is unreachable. -/
theorem fc_multipart_final (env : Env) (s : PM) (v : Video)
    (hv : s.video = some v) (hm : v.multipart = true)
    (hgt : v.parts < s.part + 1) :
    finished_callback env s =
      .ok ({ s with video := some { v with played := true } }, [Ev.setPlayed v.id true]) := by
  have hle' : ¬ (s.part + 1 ≤ v.parts) := not_le.mpr hgt
  unfold finished_callback
  rw [hv]
  dsimp only
  split_ifs
  rfl

/-- Helper: finished_callback on a single-part video with a next sibling
and auto-play on requests the sibling's first sub-video. -/
theorem fc_single_next (env : Env) (s : PM) (v : Video)
    (hv : s.video = some v) (hm : v.multipart = false)
    (hnx : v.hasNext = true) (hap : s.autoPlay = true) (hpub : env.pub = true) :
    ∃ s3 evs, finished_callback env s =
        .ok (s3, Ev.setPlayed v.id true :: Ev.playCalled env.nextFirst.id 0 :: evs) := by
  have hm' : ¬ (v.multipart = true) := by simp [hm]
  have hcond : (v.hasNext && s.autoPlay) = true := by simp [hnx, hap]
  unfold finished_callback
  rw [hv]
  dsimp only
  obtain ⟨s1, evs, hp, hpart⟩ := play_ok_of_pub env
    { s with video := some { v with played := true } } env.nextFirst 0 hpub
  split_ifs
  rw [hp]
  exact ⟨s1, evs, rfl⟩

/-- Helper: finished_callback on a single-part video without next sibling
or with auto-play off only marks the video played. -/
theorem fc_single_noauto (env : Env) (s : PM) (v : Video)
    (hv : s.video = some v) (hm : v.multipart = false)
    (hno : (v.hasNext && s.autoPlay) = false) :
    finished_callback env s =
      .ok ({ s with video := some { v with played := true } }, [Ev.setPlayed v.id true]) := by
  have hm' : ¬ (v.multipart = true) := by simp [hm]
  have hno' : ¬ ((v.hasNext && s.autoPlay) = true) := by simp [hno]
  unfold finished_callback
  rw [hv]
  dsimp only
  split_ifs
  rfl

/-- C1 counterexample: the claim says that on the final part of a
multi-part item whose parent has a next item, with auto-play enabled, the
next item's first sub-item is requested.  At this concrete state — final
part of a multi-part video, parent has next, auto-play on, healthy engine
— finished_callback only marks the video played and requests nothing: the
auto-play branch is an elif on is_multipart() (player.py line 195), never
reached for a multi-part video. -/
theorem C1_cex_final_part_skips_autoplay :
    vMulti.multipart = true ∧ vMulti.parts < sMulti.part + 1 ∧
    vMulti.hasNext = true ∧ sMulti.autoPlay = true ∧ envStd.pub = true ∧
    finished_callback envStd sMulti =
      .ok ({ sMulti with video := some { vMulti with played := true } },
        [Ev.setPlayed 1 true]) ∧
    Ev.playCalled envStd.nextFirst.id 0 ∉ (finished_callback envStd sMulti).evsOr := by
  decide

/-- C1 (corrected): for every finished_callback() with an active session
and a responsive engine: the finished item is marked played; if the video
is multi-part with a next part, the part index increases by exactly 1 and
play() is invoked on the same video reference with position reset to 0;
if the video is multi-part on its final part, NO further action is taken
even when the parent has a next item and auto-play is enabled; only when
the video is not multi-part does auto-play request the next container
item's first sub-item, and with no next item or auto-play off nothing
further happens. -/
theorem C1_finished_callback_cases (env : Env) (s : PM) (v : Video)
    (hv : s.video = some v) (hpub : env.pub = true) :
    Ev.setPlayed v.id true ∈ (finished_callback env s).evsOr ∧
    (v.multipart = true → s.part + 1 ≤ v.parts →
      ((finished_callback env s).stOr s).part = s.part + 1 ∧
      Ev.playCalled v.id 0 ∈ (finished_callback env s).evsOr) ∧
    (v.multipart = true → v.parts < s.part + 1 →
      finished_callback env s =
        .ok ({ s with video := some { v with played := true } }, [Ev.setPlayed v.id true])) ∧
    (v.multipart = false → v.hasNext = true → s.autoPlay = true →
      Ev.playCalled env.nextFirst.id 0 ∈ (finished_callback env s).evsOr) ∧
    (v.multipart = false → (v.hasNext && s.autoPlay) = false →
      finished_callback env s =
        .ok ({ s with video := some { v with played := true } }, [Ev.setPlayed v.id true])) := by
  by_cases hm : v.multipart = true
  · by_cases hle : s.part + 1 ≤ v.parts
    · obtain ⟨s3, evs, heq, hpart⟩ := fc_multipart_advance env s v hv hm hle hpub
      refine ⟨?_, ?_, ?_, ?_, ?_⟩
      · rw [heq]; simp [Outcome.evsOr]
      · intro _ _
        rw [heq]
        exact ⟨by simpa [Outcome.stOr] using hpart, by simp [Outcome.evsOr]⟩
      · intro _ hgt
        exact absurd hle (not_le.mpr hgt)
      · intro hm2 _ _
        simp [hm] at hm2
      · intro hm2 _
        simp [hm] at hm2
    · have heq := fc_multipart_final env s v hv hm (not_le.mp hle)
      refine ⟨?_, ?_, ?_, ?_, ?_⟩
      · rw [heq]; simp [Outcome.evsOr]
      · intro _ hle2
        exact absurd hle2 hle
      · intro _ _
        exact heq
      · intro hm2 _ _
        simp [hm] at hm2
      · intro hm2 _
        simp [hm] at hm2
  · have hmf : v.multipart = false := by simpa using hm
    by_cases hcond : (v.hasNext && s.autoPlay) = true
    · obtain ⟨hnx, hap⟩ := Bool.and_eq_true_iff.mp hcond
      obtain ⟨s3, evs, heq⟩ := fc_single_next env s v hv hmf hnx hap hpub
      refine ⟨?_, ?_, ?_, ?_, ?_⟩
      · rw [heq]; simp [Outcome.evsOr]
      · intro hm2 _
        simp [hmf] at hm2
      · intro hm2 _
        simp [hmf] at hm2
      · intro _ _ _
        rw [heq]; simp [Outcome.evsOr]
      · intro _ hfalse
        rw [hcond] at hfalse
        cases hfalse
    · have hno : (v.hasNext && s.autoPlay) = false := by simpa using hcond
      have heq := fc_single_noauto env s v hv hmf hno
      refine ⟨?_, ?_, ?_, ?_, ?_⟩
      · rw [heq]; simp [Outcome.evsOr]
      · intro hm2 _
        simp [hmf] at hm2
      · intro hm2 _
        simp [hmf] at hm2
      · intro _ hnx hap
        simp [hnx, hap] at hno
      · intro _ _
        exact heq

/-- C1 witness: the corrected statement applied to the concrete two-part
session on its first part. -/
theorem C1_wit : Ev.setPlayed vTwoPart.id true ∈ (finished_callback envStd sTwoPart).evsOr :=
  (C1_finished_callback_cases envStd sTwoPart vTwoPart rfl rfl).1

/-- Helper: on a raise-free queue the drain loop runs every initial task
in FIFO order (their ids lead the execution list), possibly followed by
tasks enqueued during the drain, and exits with an empty queue and no
escaped exception. -/
theorem drain_exec_of_raiseFree (q : List QTask) (h : ∀ t ∈ q, t.raiseFree = true) :
    ∃ tail, (drain q).1 = q.map QTask.tid ++ tail ∧
      (drain q).2.1 = [] ∧ (drain q).2.2 = false := by
  induction q using drain.induct with
  | case1 =>
    refine ⟨[], ?_, ?_, ?_⟩ <;> simp [drain]
  | case2 i rest ih =>
    obtain ⟨tail, h1, h2, h3⟩ := ih (fun t ht => h t (List.mem_cons_of_mem _ ht))
    refine ⟨tail, ?_, ?_, ?_⟩ <;> simp [drain, h1, h2, h3, QTask.tid]
  | case3 i rest =>
    have := h (QTask.raiseT i) (List.mem_cons_self _ _)
    simp [QTask.raiseFree] at this
  | case4 i t rest ih =>
    have hrest : ∀ x ∈ rest ++ [t], x.raiseFree = true := by
      intro x hx
      rcases List.mem_append.mp hx with hx | hx
      · exact h x (List.mem_cons_of_mem _ hx)
      · have hx' : x = t := by simpa using hx
        subst hx'
        have := h (QTask.enq i x) (List.mem_cons_self _ _)
        simpa [QTask.raiseFree] using this
    obtain ⟨tail, h1, h2, h3⟩ := ih hrest
    refine ⟨t.tid :: tail, ?_, ?_, ?_⟩ <;>
      simp [drain, h1, h2, h3, QTask.tid, List.map_append]

/-- C6 counterexample: the claim says a task enqueued while the drain is
in progress is not executed in this call but deferred to the next
update().  A task that enqueues another task during the drain sees that
second task executed by the SAME call — the loop re-tests emptiness and
runs it (execution list [0, 1], queue left empty). -/
theorem C6_cex_enqueued_during_drain_runs :
    drain [QTask.enq 0 (QTask.basic 1)] = ([0, 1], [], false) := by
  simp [drain]

/-- C6 (corrected): update()'s drain executes every task that was in the
queue when the drain began, each exactly once, in FIFO order (their ids
lead the execution list), and then any tasks enqueued during the drain —
which are executed in the same call, not deferred; the loop exits only
with the queue empty (assuming no task raises). -/
theorem C6_drain_fifo (q : List QTask) (h : ∀ t ∈ q, t.raiseFree = true) :
    (drain q).1.take q.length = q.map QTask.tid ∧
      (drain q).2.1 = [] ∧ (drain q).2.2 = false := by
  obtain ⟨tail, h1, h2, h3⟩ := drain_exec_of_raiseFree q h
  refine ⟨?_, h2, h3⟩
  rw [h1]
  rw [show q.length = (q.map QTask.tid).length by simp]
  exact List.take_left _ _

/-- C6 witness: the corrected statement on a concrete two-task queue. -/
theorem C6_wit :
    (drain [QTask.basic 5, QTask.enq 6 (QTask.basic 7)]).1.take 2 = [5, 6] ∧
    (drain [QTask.basic 5, QTask.enq 6 (QTask.basic 7)]).2.1 = [] ∧
    (drain [QTask.basic 5, QTask.enq 6 (QTask.basic 7)]).2.2 = false :=
  C6_drain_fifo [QTask.basic 5, QTask.enq 6 (QTask.basic 7)] (by decide)

/-- C8 counterexample: the claim says a raising task is isolated and
logged and the remaining queued tasks still execute in the same update().
With func(*args) unprotected (player.py line 84), the first raising task
ends the loop: the exception escapes update() and the remaining task is
left unexecuted in the queue. -/
theorem C8_cex_raise_aborts_drain :
    drain [QTask.raiseT 0, QTask.basic 1] = ([0], [QTask.basic 1], true) ∧
    (1 : Nat) ∉ (drain [QTask.raiseT 0, QTask.basic 1]).1 := by
  refine ⟨?_, ?_⟩ <;> simp [drain]

/-- C8 (corrected): there is no try/except around func(*args), so a task
that raises aborts the drain at that point: only the tasks up to and
including the raising one have been invoked, the exception propagates out
of update(), and every remaining task stays in the queue for a later
call. -/
theorem C8_drain_stops_at_raise (i : Nat) (rest : List QTask) :
    drain (QTask.raiseT i :: rest) = ([i], rest, true) := by
  simp [drain]

/-- Helper: firedCount distributes over the head call's events. -/
theorem firedCount_cons (evs : List ScrobEv) (evss : List (List ScrobEv)) :
    firedCount (evs :: evss) = evs.count ScrobEv.setPlayedEv + firedCount evss := by
  simp [firedCount]

/-- Helper: unfolding a run one update() call at a time. -/
theorem scrobble_run_cons (d : Nat) (s : Scrob) (o : Obs) (rest : List Obs) :
    (update_scrobble_run d s (o :: rest)).2 =
      (update_scrobble d s o).2 ::
        (update_scrobble_run d (update_scrobble d s o).1 rest).2 := rfl

/-- Helper: one update() call fires set_played at most once. -/
theorem scrobble_step_count_le (d : Nat) (s : Scrob) (o : Obs) :
    (update_scrobble d s o).2.count ScrobEv.setPlayedEv ≤ 1 := by
  unfold update_scrobble
  split_ifs <;> simp

/-- Helper: once the video is marked played, an update() call keeps it
played and never fires set_played again. -/
theorem scrobble_step_played_stays (d : Nat) (s : Scrob) (o : Obs)
    (h : s.played = true) :
    (update_scrobble d s o).1.played = true ∧
    (update_scrobble d s o).2.count ScrobEv.setPlayedEv = 0 := by
  unfold update_scrobble
  split_ifs <;> simp_all

/-- Helper: an update() call that fires set_played leaves the video marked
played. -/
theorem scrobble_step_fire_sets (d : Nat) (s : Scrob) (o : Obs)
    (h : (update_scrobble d s o).2.count ScrobEv.setPlayedEv = 1) :
    (update_scrobble d s o).1.played = true := by
  unfold update_scrobble at h ⊢
  split_ifs at h ⊢ <;> simp_all

/-- Helper: one update() call fires set_played exactly when the full guard
holds: engine not aborted, scrobble interval elapsed, not paused, not
already played, and position/duration at or above 0.95. -/
theorem scrobble_step_fire_iff (d : Nat) (s : Scrob) (o : Obs) :
    (update_scrobble d s o).2.count ScrobEv.setPlayedEv = 1 ↔
      (o.abort = false ∧ o.time - s.lastRestart > SCROBBLE_INTERVAL ∧
       o.paused = false ∧ s.played = false ∧ 20 * o.position ≥ 19 * d) := by
  unfold update_scrobble
  split_ifs with h1 h2 h3 h4 h5 <;> simp_all

/-- Helper: a run starting from an already-played video never fires. -/
theorem scrobble_run_played_zero (d : Nat) (os : List Obs) :
    ∀ s : Scrob, s.played = true →
      firedCount (update_scrobble_run d s os).2 = 0 := by
  induction os with
  | nil => intro s _; simp [update_scrobble_run, firedCount]
  | cons o rest ih =>
    intro s hs
    obtain ⟨h1, h2⟩ := scrobble_step_played_stays d s o hs
    rw [scrobble_run_cons, firedCount_cons, h2, ih _ h1]

/-- Helper: across any sequence of update() calls set_played fires at most
once. -/
theorem scrobble_run_le_one (d : Nat) (os : List Obs) :
    ∀ s : Scrob, firedCount (update_scrobble_run d s os).2 ≤ 1 := by
  induction os with
  | nil => intro s; simp [update_scrobble_run, firedCount]
  | cons o rest ih =>
    intro s
    rw [scrobble_run_cons, firedCount_cons]
    rcases Nat.lt_or_ge ((update_scrobble d s o).2.count ScrobEv.setPlayedEv) 1 with hc | hc
    · have hc0 := Nat.lt_one_iff.mp hc
      rw [hc0]
      simpa using ih (update_scrobble d s o).1
    · have hc1 : (update_scrobble d s o).2.count ScrobEv.setPlayedEv = 1 :=
        le_antisymm (scrobble_step_count_le d s o) hc
      have hpost := scrobble_step_fire_sets d s o hc1
      rw [hc1, scrobble_run_played_zero d rest _ hpost]

/-- C7 counterexample: the claim says set_played fires at the FIRST
update() at which position/duration reaches 0.95.  With duration 1000 and
monotone positions 950 then 960 (both at ratio ≥ 0.95), the first update()
arrives 3 seconds after the timer restart — within SCROBBLE_INTERVAL — so
nothing fires there; set_played fires only at the second call. -/
theorem C7_cex_first_ratio_update_skipped :
    (update_scrobble_run 1000 { played := false, lastRestart := 0 }
      [{ time := 3, position := 950, paused := false, abort := false },
       { time := 9, position := 960, paused := false, abort := false }]).2 =
      [[], [ScrobEv.setPlayedEv]] ∧
    20 * 950 ≥ 19 * 1000 := by decide

/-- C7 (corrected): across any sequence of update() calls on one item,
set_played fires at most once — once the item is marked played it never
fires again — and a single update() fires it exactly when the whole guard
holds: engine not aborted, more than SCROBBLE_INTERVAL seconds since the
timer restart, playback not paused, item not already played, and
position/duration ≥ 0.95.  Hence the firing call is the first one at
which that full guard holds, not the first at which the ratio alone
reaches 0.95. -/
theorem C7_set_played_once_guarded :
    (∀ (d : Nat) (s : Scrob) (os : List Obs),
      firedCount (update_scrobble_run d s os).2 ≤ 1) ∧
    (∀ (d : Nat) (s : Scrob) (o : Obs),
      (update_scrobble d s o).2.count ScrobEv.setPlayedEv = 1 ↔
        (o.abort = false ∧ o.time - s.lastRestart > SCROBBLE_INTERVAL ∧
         o.paused = false ∧ s.played = false ∧ 20 * o.position ≥ 19 * d)) :=
  ⟨fun d s os => scrobble_run_le_one d os s,
   fun d s o => scrobble_step_fire_iff d s o⟩
